import Mathlib

/-!
Verification of the D4G persona-analysis engine (src/persona_analysis.py,
src/combined.py, src/email_campaign_analysis.py) against its specification.

The engine is a batch pipeline over pandas data frames.  We embed it
shallowly: a gift-transaction row of d4g_opportunity.csv becomes an `Opp`
record, the per-account summary frame (`account` in the source) becomes a
`Summary` record, and every aggregation, threshold and classification step
is a pure Lean function translated line by line from the source.  Rational
numbers stand for pandas float64 values wherever no overflow or NaN can
arise; where the source can produce IEEE infinities or NaN (division by a
zero account age, aggregates left as NaN by a left merge) the embedding
uses `PFloat` and `Option` to record that explicitly.
-/

/-- The six persona labels assigned by the classifier. -/
inductive Persona where
  | Gary
  | Yara
  | Ryan
  | Laura
  | Peter
  | Beth
deriving DecidableEq, Repr

/-- A pandas float64 value as produced by the source's divisions: either a
finite rational, an infinity, or NaN. -/
inductive PFloat where
  | finite (q : ℚ)
  | inf
  | ninf
  | nan
deriving DecidableEq, Repr

/-- IEEE-style division of two finite float values, as pandas performs it
at `account['amount_total'] / account['account_age']`: division by zero
yields a signed infinity for a nonzero numerator and NaN for `0 / 0`. -/
def pdiv (x y : ℚ) : PFloat :=
  if y ≠ 0 then .finite (x / y)
  else if 0 < x then .inf
  else if x < 0 then .ninf
  else .nan

/-- One row of d4g_opportunity.csv after the date parsing at lines 105-107
of persona_analysis.py: account identifier (cast to string at line 130),
donation amount, close year and close month. -/
structure Opp where
  accountId : String
  amount : ℚ
  closeYear : Int
  closeMonth : Int
deriving DecidableEq, Repr

/-- Distinct keys of a groupby, first occurrence first.  The claims proved
below are insensitive to the key order pandas uses. -/
def dedupAux (seen : List String) : List String → List String
  | [] => []
  | x :: xs => if seen.contains x then dedupAux seen xs else x :: dedupAux (x :: seen) xs

def dedupFirst (l : List String) : List String := dedupAux [] l

/-- Insertion into an ascending list, for the sort behind quantiles. -/
def insertAsc (x : ℚ) : List ℚ → List ℚ
  | [] => [x]
  | y :: ys => if x ≤ y then x :: y :: ys else y :: insertAsc x ys

/-- Ascending insertion sort; pandas sorts the values before interpolating
a quantile. -/
def sortAsc : List ℚ → List ℚ
  | [] => []
  | x :: xs => insertAsc x (sortAsc xs)

/-- Linear-interpolation quantile of an ascending list, the default
`interpolation='linear'` of pandas `Series.quantile` used at lines 237-239
of persona_analysis.py.  The probability is passed as an exact fraction
`qn which stands over qd` with `qn` at most `qd` and `0 < qd`.  With `n`
points the quantile sits at fractional position `h = (qn / qd) * (n - 1)`;
writing `i = floor h` and `g = h - i` (computed exactly as the Nat
quotient and remainder of `qn * (n - 1)` by `qd`), the result is
`xs[i] + g * (xs[i+1] - xs[i])`, indices clamped to the list. -/
def quantileSorted (xs : List ℚ) (qn qd : Nat) : ℚ :=
  match xs with
  | [] => 0
  | _ :: _ =>
    let n := xs.length
    let pos := qn * (n - 1)
    let i : Nat := pos / qd
    let g : ℚ := ((pos % qd : Nat) : ℚ) / (qd : ℚ)
    let lo := xs.getD (min i (n - 1)) 0
    let hi := xs.getD (min (i + 1) (n - 1)) 0
    lo + g * (hi - lo)

/-- Quantile of an arbitrarily ordered list of values. -/
def quantileQ (vals : List ℚ) (qn qd : Nat) : ℚ := quantileSorted (sortAsc vals) qn qd

/-- Minimum of a list of integers (0 on the empty list, which the callers
never pass). -/
def listMinI : List Int → Int
  | [] => 0
  | x :: xs => xs.foldl min x

/-- Maximum of a list of integers. -/
def listMaxI : List Int → Int
  | [] => 0
  | x :: xs => xs.foldl max x

/-- Minimum of a list of rationals. -/
def listMinQ : List ℚ → ℚ
  | [] => 0
  | x :: xs => xs.foldl min x

/-- Maximum of a list of rationals. -/
def listMaxQ : List ℚ → ℚ
  | [] => 0
  | x :: xs => xs.foldl max x

/-- The gift rows belonging to one account. -/
def rowsOf (opps : List Opp) (id : String) : List Opp :=
  opps.filter (fun o => o.accountId == id)

/-- The distinct account identifiers appearing in the opportunity table. -/
def accountIds (opps : List Opp) : List String :=
  dedupFirst (opps.map (·.accountId))

/-- Lines 160-162 of persona_analysis.py: the "this year" aggregates filter
on the hardcoded literal `Close_Year == 2024`, not on a run-time as-of
year.  An account with no row in 2024 is absent from the groupby result and
the later left merge (line 181) leaves its field as NaN, embedded here as
`none`. -/
def this_year_non_zero_counts (opps : List Opp) (id : String) : Option Nat :=
  let rows := opps.filter (fun o => o.accountId == id && o.closeYear == 2024)
  if rows.isEmpty then none else some rows.length

def this_year_amount_total (opps : List Opp) (id : String) : Option ℚ :=
  let rows := opps.filter (fun o => o.accountId == id && o.closeYear == 2024)
  if rows.isEmpty then none else some (rows.map (·.amount)).sum

def this_year_amount_mean (opps : List Opp) (id : String) : Option ℚ :=
  let rows := opps.filter (fun o => o.accountId == id && o.closeYear == 2024)
  if rows.isEmpty then none else some ((rows.map (·.amount)).sum / rows.length)

/-- Lines 164-166: the "previous year" aggregates filter on the hardcoded
literal `Close_Year == 2023`. -/
def prev_year_non_zero_counts (opps : List Opp) (id : String) : Option Nat :=
  let rows := opps.filter (fun o => o.accountId == id && o.closeYear == 2023)
  if rows.isEmpty then none else some rows.length

def prev_year_amount_total (opps : List Opp) (id : String) : Option ℚ :=
  let rows := opps.filter (fun o => o.accountId == id && o.closeYear == 2023)
  if rows.isEmpty then none else some (rows.map (·.amount)).sum

def prev_year_amount_mean (opps : List Opp) (id : String) : Option ℚ :=
  let rows := opps.filter (fun o => o.accountId == id && o.closeYear == 2023)
  if rows.isEmpty then none else some ((rows.map (·.amount)).sum / rows.length)

/-- One row of the merged per-account summary frame `account` built at
lines 138-216 of persona_analysis.py.  Fields carry the source's column
names.  `non_zero_counts` and the `this_year` / `prev_year` fields are
options because the left merges at lines 180-186 leave NaN for accounts
absent from the filtered groupby; `nowYear` below stands for the value of
`datetime.datetime.now().year` during the run. -/
structure Summary where
  accountId : String
  amount_min : ℚ
  amount_max : ℚ
  amount_mean : ℚ
  amount_total : ℚ
  start_year : Int
  latest_year : Int
  first_month : Int
  avg_month : ℚ
  latest_month : Int
  non_zero_counts : Option Nat
  this_year_nzc : Option Nat
  this_year_total : Option ℚ
  this_year_mean : Option ℚ
  prev_year_nzc : Option Nat
  prev_year_total : Option ℚ
  prev_year_mean : Option ℚ
  account_age : Int
  dormancy_years : Int
  average_total_donation : PFloat
  average_time_between_donation : PFloat
deriving DecidableEq, Repr

/-- Lines 138-216: one summary row per distinct account of the opportunity
table.  `account_age` and `dormancy_years` subtract the start / latest
year from the wall-clock year (lines 210-212); the two averages divide by
`account_age` with no guard (lines 214-216). -/
def summarize (nowYear : Int) (opps : List Opp) : List Summary :=
  (accountIds opps).map (fun id =>
    let rows := rowsOf opps id
    let amounts := rows.map (·.amount)
    let years := rows.map (·.closeYear)
    let months := rows.map (·.closeMonth)
    let sy := listMinI years
    let ly := listMaxI years
    let nzc := (rows.filter (fun o => decide (0 < o.amount))).length
    let nzcOpt : Option Nat := if nzc = 0 then none else some nzc
    let age : Int := nowYear - sy
    { accountId := id
      amount_min := listMinQ amounts
      amount_max := listMaxQ amounts
      amount_mean := amounts.sum / (amounts.length : ℚ)
      amount_total := amounts.sum
      start_year := sy
      latest_year := ly
      first_month := listMinI months
      avg_month := ((months.sum : Int) : ℚ) / (months.length : ℚ)
      latest_month := listMaxI months
      non_zero_counts := nzcOpt
      this_year_nzc := this_year_non_zero_counts opps id
      this_year_total := this_year_amount_total opps id
      this_year_mean := this_year_amount_mean opps id
      prev_year_nzc := prev_year_non_zero_counts opps id
      prev_year_total := prev_year_amount_total opps id
      prev_year_mean := prev_year_amount_mean opps id
      account_age := age
      dormancy_years := nowYear - ly
      average_total_donation := pdiv amounts.sum ((age : ℚ))
      average_time_between_donation :=
        match nzcOpt with
        | some n => pdiv (n : ℚ) ((age : ℚ))
        | none => PFloat.nan })

/-- Line 219: `df_value = account[account['amount_total'] > 0]`. -/
def valuedSummaries (nowYear : Int) (opps : List Opp) : List Summary :=
  (summarize nowYear opps).filter (fun s => decide (0 < s.amount_total))

/-- Line 237: `amount_q33 = df_value['amount_total'].quantile(0.33)`. -/
def amount_q33 (nowYear : Int) (opps : List Opp) : ℚ :=
  quantileQ ((valuedSummaries nowYear opps).map (·.amount_total)) 33 100

/-- Line 238: `amount_q67 = df_value['amount_total'].quantile(0.67)`. -/
def amount_q67 (nowYear : Int) (opps : List Opp) : ℚ :=
  quantileQ ((valuedSummaries nowYear opps).map (·.amount_total)) 67 100

/-- Line 239: `dormancy_median = df_value['dormancy_years'].median()`,
which is the linear-interpolation quantile at probability one half. -/
def dormancy_median (nowYear : Int) (opps : List Opp) : ℚ :=
  quantileQ ((valuedSummaries nowYear opps).map (fun s => (s.dormancy_years : ℚ))) 1 2

/-- Lines 234-260 restricted to one account: the persona column starts as
NaN (`none`); the six masked assignments run in source order, each
overwriting whatever an earlier rule assigned wherever its condition
holds. -/
def classify (q33 q67 med A D : ℚ) : Option Persona :=
  let c : Option Persona := none
  let c := if q67 ≤ A ∧ D < med then some .Gary else c
  let c := if A ≤ q33 ∧ D < med then some .Yara else c
  let c := if q33 < A ∧ A < q67 ∧ D < med then some .Ryan else c
  let c := if q67 ≤ A ∧ med ≤ D then some .Laura else c
  let c := if q33 < A ∧ A < q67 ∧ med ≤ D then some .Peter else c
  let c := if A ≤ q33 ∧ med ≤ D then some .Beth else c
  c

/-- The persona the pipeline computes for one summary row. -/
def personaOf (nowYear : Int) (opps : List Opp) (s : Summary) : Option Persona :=
  classify (amount_q33 nowYear opps) (amount_q67 nowYear opps)
    (dormancy_median nowYear opps) s.amount_total ((s.dormancy_years : ℚ))

/-- The valued frame after the six rule assignments of lines 244-260: each
valued account paired with its (possibly unset) persona column. -/
def classifyAll (nowYear : Int) (opps : List Opp) : List (Summary × Option Persona) :=
  (valuedSummaries nowYear opps).map (fun s => (s, personaOf nowYear opps s))

/-- Persona of a given account id in the classified frame. -/
def lookupPersona (l : List (Summary × Option Persona)) (id : String) : Option Persona :=
  match l.find? (fun r => r.1.accountId == id) with
  | some r => r.2
  | none => none

/-- Number of rows of the classified frame carrying a given persona. -/
def countP (p : Persona) (l : List (Summary × Option Persona)) : Nat :=
  (l.filter (fun r => decide (r.2 = some p))).length

/-- Lines 262-265: the persona column is cast to string (NaN prints as the
string nan) and rows whose persona is that string are removed.  No
assertion is raised; the function always returns successfully with the
unclassified rows dropped.  An error value models a raised exception,
which this step never produces. -/
def dropUnclassified (rows : List (Summary × Option Persona)) : List (Summary × Persona) :=
  rows.filterMap (fun r => r.2.map (fun p => (r.1, p)))

def finalizeValued (rows : List (Summary × Option Persona)) :
    Except String (List (Summary × Persona)) :=
  Except.ok (dropUnclassified rows)

/-- The six-row rule table of spec section 4.3, written from the spec's
words, each row paired with its persona; used to compare the code's
sequential overwrite against the spec's reading "the last matching rule in
table order wins". -/
def ruleTable (q33 q67 med A D : ℚ) : List (Bool × Persona) :=
  [ (decide (q67 ≤ A) && decide (D < med), .Gary),
    (decide (A ≤ q33) && decide (D < med), .Yara),
    (decide (q33 < A) && decide (A < q67) && decide (D < med), .Ryan),
    (decide (q67 ≤ A) && decide (med ≤ D), .Laura),
    (decide (q33 < A) && decide (A < q67) && decide (med ≤ D), .Peter),
    (decide (A ≤ q33) && decide (med ≤ D), .Beth) ]

/-- Spec-worded classification: the last rule of the table whose condition
holds, if any. -/
def lastMatchingRule (q33 q67 med A D : ℚ) : Option Persona :=
  (((ruleTable q33 q67 med A D).filter (·.1)).getLast?).map (·.2)

/-- Accounts having at least one positive-amount gift in the given year, in
groupby key order (order is irrelevant to the claims below). -/
def positiveDonors (opps : List Opp) (y : Int) : List String :=
  dedupFirst ((opps.filter (fun o => o.closeYear == y && decide (0 < o.amount))).map (·.accountId))

/-- Count of positive-amount gifts of one account in one year (the
`times_donated_YYYY` column of line 193). -/
def timesDonated (opps : List Opp) (y : Int) (id : String) : Nat :=
  (opps.filter (fun o => o.accountId == id && o.closeYear == y && decide (0 < o.amount))).length

/-- One row of the frame `y` built at lines 188-197: `times` and `flags`
hold the `times_donated_(nowYear - j)` and `flag_donated_(nowYear - j)`
columns for offsets `j = 0..5`, with the NaN entries of the vertical
append already replaced by `0` (line 197's `fillna(0)`). -/
structure YRow where
  accountId : String
  times : List ℚ
  flags : List ℚ
deriving DecidableEq, Repr

/-- The rows the loop iteration for offset `i` contributes to `y`: one row
per account with a positive gift in year `nowYear - i`; its `times` and
`flag` entries for that year are set (the flag to `1`, line 194) and every
other year's entry is the `fillna(0)` zero. -/
def yRowsFor (nowYear : Int) (opps : List Opp) (i : Nat) : List YRow :=
  (positiveDonors opps (nowYear - i)).map (fun id =>
    { accountId := id
      times := (List.range 6).map (fun j =>
        if j = i then ((timesDonated opps (nowYear - i) id : ℚ)) else 0)
      flags := (List.range 6).map (fun j => if j = i then 1 else 0) })

/-- Lines 188-197: the year frames are appended vertically
(`y._append(y1)`), one block per offset, not merged per account. -/
def yTable (nowYear : Int) (opps : List Opp) : List YRow :=
  (List.range 6).flatMap (yRowsFor nowYear opps)

/-- Lines 199-202: `last_5_non0_years` starts at `0` and adds the six flag
columns, row by row. -/
def last_5_non0_years (r : YRow) : ℚ := r.flags.sum

/-- Required files and columns of the persona module
(persona_analysis.py lines 23-27). -/
def personaRequiredFiles : List (String × List String) :=
  [ ("d4g_account.csv", ["npo02__LastCloseDate__c", "Id"]),
    ("d4g_opportunity.csv", ["Amount", "AccountId", "CloseDate"]),
    ("d4g_address.csv",
      ["npsp__Household_Account__c", "npsp__MailingCity__c", "npsp__MailingState__c"]) ]

/-- Required files and columns of the email-campaign module
(email_campaign_analysis.py lines 21-25). -/
def campaignRequiredFiles : List (String × List String) :=
  [ ("campaign_monitor_extract.csv",
      ["Name", "wbsendit__Campaign_ID__c", "wbsendit__Num_Opens__c", "wbsendit__Num_Clicks__c"]),
    ("contact_extract.csv",
      ["ID", "goldenapp__Gender__c", "npo02__LastCloseDate__c", "npo02__TotalOppAmount__c"]),
    ("email_tracking_extract.csv",
      ["Name", "wbsendit__Campaign_ID__c", "wbsendit__Contact__c", "wbsendit__Activity__c"]) ]

/-- Required files and columns of the church module
(church_analysis.py lines 20-23). -/
def churchRequiredFiles : List (String × List String) :=
  [ ("d4g_account.csv", ["Account Record Type", "First_Gift_Year__c", "Id"]),
    ("d4g_opportunity.csv", ["Amount", "AccountId", "CloseDate", "Probability"]) ]

/-- The shared `validate_inputs` loop of the three analysis modules.  The
input directory is a map from file name to the file's column list (`none`
when the file is missing or unreadable).  Returns the `all_ok` flag and
the `missing_columns` list of (file, column) pairs, accumulated in file
order exactly as the source's loop does: a missing file clears `all_ok`
and records nothing; an existing file contributes one pair per required
column absent from its header. -/
def validateFiles (req : List (String × List String))
    (dir : String → Option (List String)) : Bool × List (String × String) :=
  match req with
  | [] => (true, [])
  | (fname, cols) :: rest =>
    let r := validateFiles rest dir
    match dir fname with
    | none => (false, r.2)
    | some actual =>
      let miss := cols.filter (fun c => decide (c ∉ actual))
      (miss.isEmpty && r.1, miss.map (fun c => (fname, c)) ++ r.2)

/-- persona_analysis.py `validate_inputs`. -/
def validate_inputs_persona (dir : String → Option (List String)) : Bool × List (String × String) :=
  validateFiles personaRequiredFiles dir

/-- email_campaign_analysis.py `validate_inputs`. -/
def validate_inputs_campaign (dir : String → Option (List String)) : Bool × List (String × String) :=
  validateFiles campaignRequiredFiles dir

/-- church_analysis.py `validate_inputs`. -/
def validate_inputs_church (dir : String → Option (List String)) : Bool × List (String × String) :=
  validateFiles churchRequiredFiles dir

/-- Which analysis modules a run of combined.py (lines 98-115) invokes:
each module runs exactly when its own validator returns `all_ok`; a
validator returning false only logs and skips that one module. -/
structure RunOutcome where
  personaRan : Bool
  campaignRan : Bool
  churchRan : Bool
deriving DecidableEq, Repr

def orchestrate (dir : String → Option (List String)) : RunOutcome :=
  { personaRan := (validate_inputs_persona dir).1
    campaignRan := (validate_inputs_campaign dir).1
    churchRan := (validate_inputs_church dir).1 }

/-- The in-body column checks of `process_Personas` (lines 83-88, 96-104
and 111-119): inside a `try` block the expression
`all(req in cols for req in required)` is evaluated and its value
discarded; the `except` branch raising `SystemExit` fires only when the
evaluation itself raises an exception, which a membership test over an
already-read column list never does.  `Except.error` models the raised
`SystemExit`; the `Except.ok` payload is the discarded boolean. -/
def inBodyColumnCheck (required cols : List String) : Except String Bool :=
  Except.ok (required.all (fun r => decide (r ∈ cols)))

def acc_req_cols : List String := ["npo02__LastCloseDate__c", "Id"]

def opp_req_cols : List String := ["Amount", "AccountId", "CloseDate"]

def addr_req_cols : List String :=
  ["npsp__Household_Account__c", "npsp__MailingCity__c", "npsp__MailingState__c"]

/-- Column list of a pandas `merge(..., on=key)`: the left frame's columns
followed by the right frame's columns other than the key (the frames
merged at lines 172-186 share no other column name). -/
def mergeCols (left right : List String) (key : String) : List String :=
  left ++ right.filter (fun c => decide (c ≠ key))

/-- Columns of the merged `account` frame after lines 172-186 and the four
derived columns of lines 210-216. -/
def accountCols : List String :=
  let c := mergeCols ["AccountId", "amount_min"] ["AccountId", "amount_max"] "AccountId"
  let c := mergeCols c ["AccountId", "amount_mean"] "AccountId"
  let c := mergeCols c ["AccountId", "start_year"] "AccountId"
  let c := mergeCols c ["AccountId", "latest_year"] "AccountId"
  let c := mergeCols c ["AccountId", "first_month"] "AccountId"
  let c := mergeCols c ["AccountId", "avg_month"] "AccountId"
  let c := mergeCols c ["AccountId", "latest_month"] "AccountId"
  let c := mergeCols c ["AccountId", "amount_total"] "AccountId"
  let c := mergeCols c ["AccountId", "non_zero_counts"] "AccountId"
  let c := mergeCols c ["AccountId", "this_year_non_zero_counts"] "AccountId"
  let c := mergeCols c ["AccountId", "this_year_amount_total"] "AccountId"
  let c := mergeCols c ["AccountId", "this_year_amount_mean"] "AccountId"
  let c := mergeCols c ["AccountId", "prev_year_non_zero_counts"] "AccountId"
  let c := mergeCols c ["AccountId", "prev_year_amount_total"] "AccountId"
  let c := mergeCols c ["AccountId", "prev_year_amount_mean"] "AccountId"
  c ++ ["account_age", "dormancy_years", "average_total_donation", "average_time_between_donation"]

/-- Columns of `df_value` as written to d4g_value_output.csv (line 294):
the `account` columns survive the `amount_total > 0` row filter of line
219 unchanged; lines 227-228 append the three percentile-rank columns,
line 234 the persona column and lines 270-285 the group column. -/
def dfValueCols : List String :=
  accountCols ++
    ["amount_total_percentiles", "non_zero_counts_percentiles", "dormancy_years_percentiles"] ++
    ["persona", "group"]

/-- The two columns the email-campaign module selects from
d4g_value_output.csv for its join (email_campaign_analysis.py line 473:
`df_personas[['AccountId', 'persona']]`, joined by account id). -/
def campaignJoinCols : List String := ["AccountId", "persona"]

/-- A placeholder summary row used only as the default of `List.getD` when
extracting a concrete row from a concrete frame. -/
def defaultSummary : Summary :=
  { accountId := "", amount_min := 0, amount_max := 0, amount_mean := 0, amount_total := 0,
    start_year := 0, latest_year := 0, first_month := 0, avg_month := 0, latest_month := 0,
    non_zero_counts := none, this_year_nzc := none, this_year_total := none,
    this_year_mean := none, prev_year_nzc := none, prev_year_total := none,
    prev_year_mean := none, account_age := 0, dormancy_years := 0,
    average_total_donation := PFloat.nan, average_time_between_donation := PFloat.nan }

/-- The boundary example of spec section 8: three accounts with one
positive gift each of 100, 500 and 5000, all closed in the as-of year, so
every account has dormancy 0. -/
def exC3 : List Opp := [⟨"a", 100, 2025, 1⟩, ⟨"b", 500, 2025, 1⟩, ⟨"c", 5000, 2025, 1⟩]

/-- A degenerate-distribution example: both valued accounts share
amount_total 10; dormancies are 0 and 5, so the dormancy median is 5/2. -/
def exDeg : List Opp := [⟨"a", 10, 2025, 1⟩, ⟨"b", 10, 2020, 1⟩]

/-- The first row of the valued frame of `exDeg` (account a, dormancy 0). -/
def sDegA : Summary := (valuedSummaries 2025 exDeg).getD 0 defaultSummary

/-- One gift closed in 2025, the wall-clock year of the run. -/
def exC4this : List Opp := [⟨"a", 50, 2025, 6⟩]

/-- One gift closed in 2024, the year hardcoded in the `this_year`
filters. -/
def exC4hard : List Opp := [⟨"a", 50, 2024, 6⟩]

/-- One gift closed in 2023, the year hardcoded in the `prev_year`
filters. -/
def exC4prev : List Opp := [⟨"a", 50, 2023, 6⟩]

/-- One account donating in the as-of year 2030, in 2028 and in 2026:
three of the six years of the trailing window. -/
def exC5 : List Opp := [⟨"a", 10, 2030, 1⟩, ⟨"a", 10, 2028, 1⟩, ⟨"a", 10, 2026, 1⟩]

/-- One account whose single positive gift closes in the as-of year, so
start_year equals the as-of year and account_age is 0. -/
def exC6 : List Opp := [⟨"a", 50, 2025, 3⟩]

/-- A concrete input directory for the missing-column scenario: the
accounts table lacks npo02__LastCloseDate__c but carries everything the
church module needs; the opportunity, address and three campaign extracts
are complete. -/
def dirC8 : String → Option (List String) := fun f =>
  if f = "d4g_account.csv" then some ["Id", "Account Record Type", "First_Gift_Year__c"]
  else if f = "d4g_opportunity.csv" then
    some ["Amount", "AccountId", "CloseDate", "Probability"]
  else if f = "d4g_address.csv" then
    some ["npsp__Household_Account__c", "npsp__MailingCity__c", "npsp__MailingState__c"]
  else if f = "campaign_monitor_extract.csv" then
    some ["Name", "wbsendit__Campaign_ID__c", "wbsendit__Num_Opens__c", "wbsendit__Num_Clicks__c"]
  else if f = "contact_extract.csv" then
    some ["ID", "goldenapp__Gender__c", "npo02__LastCloseDate__c", "npo02__TotalOppAmount__c"]
  else if f = "email_tracking_extract.csv" then
    some ["Name", "wbsendit__Campaign_ID__c", "wbsendit__Contact__c", "wbsendit__Activity__c"]
  else none

/-- The six masked assignments leave some persona in place: together the
three amount bands and two dormancy bands cover every point. -/
theorem classify_isSome (q33 q67 med A D : ℚ) : (classify q33 q67 med A D).isSome = true := by
  unfold classify
  by_cases h1 : q67 ≤ A <;> by_cases h2 : A ≤ q33 <;> by_cases h5 : D < med <;>
    simp [h1, h2, h5, not_lt.mp, not_le.mp, lt_of_not_le, not_le_of_lt] <;>
      split <;> simp

/-- Each row of the classified frame carries one persona value, so the six
per-persona row counts add up to the row count. -/
theorem count_partition (l : List (Summary × Option Persona))
    (h : ∀ r ∈ l, (r.2).isSome = true) :
    countP .Gary l + countP .Yara l + countP .Ryan l + countP .Laura l +
      countP .Peter l + countP .Beth l = l.length := by
  induction l with
  | nil => simp [countP]
  | cons r t ih =>
    have hr : (r.2).isSome = true := h r (List.mem_cons_self r t)
    have ht : ∀ x ∈ t, (x.2).isSome = true := fun x hx => h x (List.mem_cons_of_mem r hx)
    obtain ⟨p, hp⟩ := Option.isSome_iff_exists.mp hr
    have ih' := ih ht
    cases p <;> simp [countP, List.filter_cons, hp] at ih' ⊢ <;> omega

theorem length_insertAsc (x : ℚ) (l : List ℚ) : (insertAsc x l).length = l.length + 1 := by
  induction l with
  | nil => rfl
  | cons y ys ih => by_cases h : x ≤ y <;> simp [insertAsc, h, ih]

theorem length_sortAsc (l : List ℚ) : (sortAsc l).length = l.length := by
  induction l with
  | nil => rfl
  | cons x xs ih => simp [sortAsc, length_insertAsc, ih]

theorem mem_insertAsc (y x : ℚ) (l : List ℚ) (h : y ∈ insertAsc x l) : y = x ∨ y ∈ l := by
  induction l with
  | nil => simp [insertAsc] at h; simp [h]
  | cons z zs ih =>
    by_cases hz : x ≤ z
    · simpa [insertAsc, hz] using h
    · simp only [insertAsc, hz, if_false, List.mem_cons] at h
      rcases h with h | h
      · simp [h]
      · rcases ih h with h1 | h1 <;> simp [h1]

theorem mem_sortAsc (y : ℚ) (l : List ℚ) (h : y ∈ sortAsc l) : y ∈ l := by
  induction l generalizing y with
  | nil => simp [sortAsc] at h
  | cons x xs ih =>
    rcases mem_insertAsc y x (sortAsc xs) h with h1 | h1
    · simp [h1]
    · exact List.mem_cons_of_mem x (ih y h1)

theorem getD_of_all_eq (xs : List ℚ) (c : ℚ) (h : ∀ x ∈ xs, x = c) (k : Nat)
    (hk : k < xs.length) : xs.getD k 0 = c := by
  have hg : xs.getD k 0 = xs[k] := by
    rw [List.getD_eq_getElem?_getD, List.getElem?_eq_getElem hk]
    rfl
  rw [hg]
  exact h _ (List.getElem_mem hk)

/-- On a nonempty list whose entries are all equal, any interpolated
quantile returns that common value: both clamped indices stay in range and
interpolation between two equal values is the value itself. -/
theorem quantileSorted_const (xs : List ℚ) (c : ℚ) (qn qd : Nat) (hne : xs ≠ [])
    (h : ∀ x ∈ xs, x = c) : quantileSorted xs qn qd = c := by
  match xs, hne with
  | x :: rest, _ =>
    simp only [quantileSorted]
    have hlen : 0 < (x :: rest).length := by simp
    have h1 : min (qn * ((x :: rest).length - 1) / qd) ((x :: rest).length - 1) <
        (x :: rest).length := by omega
    have h2 : min (qn * ((x :: rest).length - 1) / qd + 1) ((x :: rest).length - 1) <
        (x :: rest).length := by omega
    rw [getD_of_all_eq _ c h _ h1, getD_of_all_eq _ c h _ h2]
    ring

theorem quantileQ_const (vals : List ℚ) (c : ℚ) (qn qd : Nat) (hne : vals ≠ [])
    (h : ∀ x ∈ vals, x = c) : quantileQ vals qn qd = c := by
  apply quantileSorted_const
  · intro hs
    have := length_sortAsc vals
    rw [hs] at this
    simp at this
    exact hne (List.length_eq_zero.mp this.symm)
  · exact fun x hx => h x (mem_sortAsc x vals hx)

/-- When every valued account has the same amount_total, the 33rd
percentile threshold collapses to that common amount. -/
theorem valued_q33_const (nowYear : Int) (opps : List Opp) (c : ℚ)
    (h : ∀ s ∈ valuedSummaries nowYear opps, s.amount_total = c)
    (hne : valuedSummaries nowYear opps ≠ []) : amount_q33 nowYear opps = c := by
  apply quantileQ_const
  · simpa using hne
  · intro x hx
    obtain ⟨s, hs, rfl⟩ := List.mem_map.mp hx
    exact h s hs

/-- When every valued account has the same amount_total, the 67th
percentile threshold collapses to that common amount. -/
theorem valued_q67_const (nowYear : Int) (opps : List Opp) (c : ℚ)
    (h : ∀ s ∈ valuedSummaries nowYear opps, s.amount_total = c)
    (hne : valuedSummaries nowYear opps ≠ []) : amount_q67 nowYear opps = c := by
  apply quantileQ_const
  · simpa using hne
  · intro x hx
    obtain ⟨s, hs, rfl⟩ := List.mem_map.mp hx
    exact h s hs

/-- The shared validator marks the run not-ok and records the pair
(d4g_account.csv, npo02__LastCloseDate__c) whenever the accounts table is
readable but lacks that column. -/
theorem validate_persona_flags_missing_close_date (dir : String → Option (List String))
    (cols : List String) (hacc : dir "d4g_account.csv" = some cols)
    (hmiss : "npo02__LastCloseDate__c" ∉ cols) :
    (validate_inputs_persona dir).1 = false ∧
    ("d4g_account.csv", "npo02__LastCloseDate__c") ∈ (validate_inputs_persona dir).2 := by
  have hmem : "npo02__LastCloseDate__c" ∈
      (["npo02__LastCloseDate__c", "Id"].filter (fun c => decide (c ∉ cols))) := by
    simp [List.mem_filter, hmiss]
  have hne : (["npo02__LastCloseDate__c", "Id"].filter (fun c => decide (c ∉ cols))) ≠ [] :=
    List.ne_nil_of_mem hmem
  have hie : (["npo02__LastCloseDate__c", "Id"].filter (fun c => decide (c ∉ cols))).isEmpty
      = false := List.isEmpty_eq_false.mpr hne
  constructor
  · simp only [validate_inputs_persona, personaRequiredFiles, validateFiles, hacc]
    rw [hie]
    rfl
  · simp only [validate_inputs_persona, personaRequiredFiles, validateFiles, hacc]
    exact List.mem_append_left _ (List.mem_map_of_mem (fun c => ("d4g_account.csv", c)) hmem)

/-- Claim C1: for every valued account the persona is determined by the
six rules in the fixed order Gary, Yara, Ryan, Laura, Peter, Beth with the
last matching rule winning on overlap (the sequential masked overwrite of
lines 244-260 equals taking the last matching row of the spec's rule
table); in particular, when all valued accounts share one amount_total
(so q33 = q67 = that amount), every low-dormancy account resolves to Yara
and every high-dormancy account resolves to Beth. -/
theorem persona_rules_ordered_last_match_wins :
    (∀ q33 q67 med A D : ℚ, classify q33 q67 med A D = lastMatchingRule q33 q67 med A D) ∧
    (∀ (nowYear : Int) (opps : List Opp) (c : ℚ),
      (∀ s ∈ valuedSummaries nowYear opps, s.amount_total = c) →
      ∀ s ∈ valuedSummaries nowYear opps,
        ((s.dormancy_years : ℚ) < dormancy_median nowYear opps →
          personaOf nowYear opps s = some Persona.Yara) ∧
        (dormancy_median nowYear opps ≤ (s.dormancy_years : ℚ) →
          personaOf nowYear opps s = some Persona.Beth)) := by
  constructor
  · intro q33 q67 med A D
    unfold classify lastMatchingRule ruleTable
    by_cases h1 : q67 ≤ A <;> by_cases h2 : A ≤ q33 <;> by_cases h3 : q33 < A <;>
      by_cases h4 : A < q67 <;> by_cases h5 : D < med <;>
        simp [h1, h2, h3, h4, h5, not_lt.mp, le_of_not_lt, not_le.mp, lt_of_not_le,
          not_lt_of_le, not_le_of_lt, List.filter, List.getLast?]
  · intro nowYear opps c hall s hs
    have hne : valuedSummaries nowYear opps ≠ [] := List.ne_nil_of_mem hs
    have h33 := valued_q33_const nowYear opps c hall hne
    have h67 := valued_q67_const nowYear opps c hall hne
    have hA := hall s hs
    constructor
    · intro hD
      simp [personaOf, h33, h67, hA, classify, le_refl, lt_irrefl, hD, not_le_of_lt hD]
    · intro hD
      have hD' : ¬ ((s.dormancy_years : ℚ) < dormancy_median nowYear opps) := not_lt.mpr hD
      simp [personaOf, h33, h67, hA, classify, le_refl, lt_irrefl, hD, hD']

set_option maxRecDepth 40000 in
/-- Witness for C1: on `exDeg` both valued accounts share amount_total 10,
and the low-dormancy account a (dormancy 0, below the median 5/2) resolves
to Yara, through rule 2 overwriting rule 1. -/
theorem persona_rules_ordered_last_match_wins_witness :
    personaOf 2025 exDeg sDegA = some Persona.Yara :=
  (persona_rules_ordered_last_match_wins.2 2025 exDeg 10
    (of_decide_eq_true (by with_unfolding_all rfl)) sDegA
    (of_decide_eq_true (by with_unfolding_all rfl))).1
    (of_decide_eq_true (by with_unfolding_all rfl))

/-- Claim C2: for every nonempty valued frame, after the six rules every
valued row carries a persona (none unset, and a row holds exactly one
persona value), and the six per-persona counts add up to the number of
valued accounts. -/
theorem persona_partition_complete (nowYear : Int) (opps : List Opp)
    (_hne : valuedSummaries nowYear opps ≠ []) :
    (∀ r ∈ classifyAll nowYear opps, (r.2).isSome = true) ∧
    countP .Gary (classifyAll nowYear opps) + countP .Yara (classifyAll nowYear opps) +
      countP .Ryan (classifyAll nowYear opps) + countP .Laura (classifyAll nowYear opps) +
      countP .Peter (classifyAll nowYear opps) + countP .Beth (classifyAll nowYear opps) =
      (valuedSummaries nowYear opps).length := by
  have hall : ∀ r ∈ classifyAll nowYear opps, (r.2).isSome = true := by
    intro r hr
    obtain ⟨s, _, rfl⟩ := List.mem_map.mp hr
    exact classify_isSome _ _ _ _ _
  refine ⟨hall, ?_⟩
  rw [count_partition _ hall]
  simp [classifyAll]

set_option maxRecDepth 40000 in
/-- Witness for C2: on the three-account example the counts are one Beth,
one Peter and one Laura, totalling the three valued accounts. -/
theorem persona_partition_complete_witness :
    countP .Gary (classifyAll 2025 exC3) + countP .Yara (classifyAll 2025 exC3) +
      countP .Ryan (classifyAll 2025 exC3) + countP .Laura (classifyAll 2025 exC3) +
      countP .Peter (classifyAll 2025 exC3) + countP .Beth (classifyAll 2025 exC3) =
      (valuedSummaries 2025 exC3).length :=
  (persona_partition_complete 2025 exC3 (of_decide_eq_true (by with_unfolding_all rfl))).2

set_option maxRecDepth 40000 in
/-- Counterexample to claim C3: on amounts [100, 500, 5000] with one
same-year gift each, q33 = 364 and q67 = 2030 as the claim states, but the
100-amount account is assigned Beth, not Yara: every dormancy equals 0,
the dormancy median is 0, and the strict test dormancy < median fails for
all three accounts, so none lands in the low-dormancy bucket. -/
theorem boundary_example_not_low_dormancy_bucket :
    amount_q33 2025 exC3 = 364 ∧ amount_q67 2025 exC3 = 2030 ∧
    lookupPersona (classifyAll 2025 exC3) "a" = some Persona.Beth ∧
    ¬ lookupPersona (classifyAll 2025 exC3) "a" = some Persona.Yara := by
  with_unfolding_all decide

set_option maxRecDepth 40000 in
/-- Claim C3 as amended: the interpolated thresholds are q33 = 364 and
q67 = 2030, but since every account's dormancy_years equals the dormancy
median 0, all three accounts fall into the high-dormancy bucket:
100 to Beth, 500 to Peter, 5000 to Laura. -/
theorem boundary_example_high_dormancy_assignments :
    amount_q33 2025 exC3 = 364 ∧ amount_q67 2025 exC3 = 2030 ∧
    dormancy_median 2025 exC3 = 0 ∧
    lookupPersona (classifyAll 2025 exC3) "a" = some Persona.Beth ∧
    lookupPersona (classifyAll 2025 exC3) "b" = some Persona.Peter ∧
    lookupPersona (classifyAll 2025 exC3) "c" = some Persona.Laura := by
  with_unfolding_all decide

/-- Claim C4 (code bug): the this-year and prev-year aggregates filter on
the literal years 2024 and 2023, not on an as-of year.  A gift closed in
2025 (the wall-clock year of the run) is excluded from every this-year
aggregate, while a 2024 gift is included regardless of the as-of year;
likewise prev-year covers only 2023. -/
theorem year_aggregates_hardcoded_2024_2023 :
    this_year_amount_total exC4this "a" = none ∧
    this_year_non_zero_counts exC4this "a" = none ∧
    this_year_amount_mean exC4this "a" = none ∧
    this_year_amount_total exC4hard "a" = some 50 ∧
    prev_year_amount_total exC4hard "a" = none ∧
    prev_year_amount_total exC4prev "a" = some 50 := by
  with_unfolding_all decide

set_option maxRecDepth 40000 in
/-- Claim C5 (code bug): the per-year frames are appended vertically, so
an account active in three window years yields three rows whose flags
never combine; each row's last_5_non0_years is 1, and no row carries the
claimed per-account value 3. -/
theorem recency_flags_never_combine_across_years :
    (yTable 2030 exC5).map last_5_non0_years = [1, 1, 1] ∧
    (∀ r ∈ yTable 2030 exC5, r.accountId = "a" ∧ ¬ last_5_non0_years r = 3) := by
  with_unfolding_all decide

set_option maxRecDepth 40000 in
/-- Claim C6 (code bug): an account whose only gift closes in the as-of
year has account_age 0, and the unguarded divisions of lines 214-216
produce the float infinity for both averages instead of an explicitly
handled finite value. -/
theorem zero_account_age_division_yields_infinity :
    ((summarize 2025 exC6).getD 0 defaultSummary).amount_total = 50 ∧
    ((summarize 2025 exC6).getD 0 defaultSummary).account_age = 0 ∧
    ((summarize 2025 exC6).getD 0 defaultSummary).average_total_donation = PFloat.inf ∧
    ((summarize 2025 exC6).getD 0 defaultSummary).average_time_between_donation = PFloat.inf := by
  with_unfolding_all decide

/-- Counterexample to claim C7: a frame containing an account with no
assigned persona is finalized without any raised error; the account is
silently dropped from the valued output instead of triggering a fatal
assertion failure. -/
theorem unclassified_account_dropped_without_error :
    (defaultSummary, (none : Option Persona)).2 = none ∧
    finalizeValued [(defaultSummary, none)] = Except.ok [] := ⟨rfl, rfl⟩

/-- Claim C7 as amended: the post-classification step never raises; rows
with an unset persona are silently removed from the valued output, and in
the actual pipeline the removal is vacuous because classification leaves
no valued account unset. -/
theorem unclassified_rows_silently_filtered :
    (∀ rows : List (Summary × Option Persona), (finalizeValued rows).isOk = true) ∧
    (∀ (nowYear : Int) (opps : List Opp),
      (dropUnclassified (classifyAll nowYear opps)).length =
        (valuedSummaries nowYear opps).length) := by
  refine ⟨fun rows => rfl, fun nowYear opps => ?_⟩
  show (dropUnclassified ((valuedSummaries nowYear opps).map
    (fun s => (s, personaOf nowYear opps s)))).length = (valuedSummaries nowYear opps).length
  induction valuedSummaries nowYear opps with
  | nil => rfl
  | cons s t ih =>
    obtain ⟨p, hp⟩ := Option.isSome_iff_exists.mp
      (show (personaOf nowYear opps s).isSome = true from classify_isSome _ _ _ _ _)
    simp [dropUnclassified, List.filterMap_cons, hp] at ih ⊢
    exact ih

/-- Claim C8: when the accounts table is readable but lacks
npo02__LastCloseDate__c, the persona validator reports not-ok and records
that file and column pair, the orchestrator skips the persona module, and
the campaign and church modules (whose own validations pass) still run. -/
theorem missing_column_aborts_persona_only (dir : String → Option (List String))
    (cols : List String) (hacc : dir "d4g_account.csv" = some cols)
    (hmiss : "npo02__LastCloseDate__c" ∉ cols)
    (hcamp : (validate_inputs_campaign dir).1 = true)
    (hchurch : (validate_inputs_church dir).1 = true) :
    (validate_inputs_persona dir).1 = false ∧
    ("d4g_account.csv", "npo02__LastCloseDate__c") ∈ (validate_inputs_persona dir).2 ∧
    orchestrate dir = { personaRan := false, campaignRan := true, churchRan := true } := by
  obtain ⟨h1, h2⟩ := validate_persona_flags_missing_close_date dir cols hacc hmiss
  exact ⟨h1, h2, by simp [orchestrate, h1, hcamp, hchurch]⟩

/-- Witness for C8: the concrete directory `dirC8` whose accounts table
lacks the last-close-date column. -/
theorem missing_column_aborts_persona_only_witness :
    (validate_inputs_persona dirC8).1 = false ∧
    ("d4g_account.csv", "npo02__LastCloseDate__c") ∈ (validate_inputs_persona dirC8).2 ∧
    orchestrate dirC8 = { personaRan := false, campaignRan := true, churchRan := true } :=
  missing_column_aborts_persona_only dirC8
    ["Id", "Account Record Type", "First_Gift_Year__c"] rfl (by decide) (by decide) (by decide)

/-- Claim C9: the valued-account output keeps the account identifier and
persona columns (alongside the group and percentile-rank columns), so the
email-campaign module's two-column selection by account id is covered. -/
theorem valued_output_has_account_id_and_persona :
    "AccountId" ∈ dfValueCols ∧ "persona" ∈ dfValueCols ∧ "group" ∈ dfValueCols ∧
    "amount_total_percentiles" ∈ dfValueCols ∧ "non_zero_counts_percentiles" ∈ dfValueCols ∧
    "dormancy_years_percentiles" ∈ dfValueCols ∧
    (campaignJoinCols.all (fun c => decide (c ∈ dfValueCols))) = true := by decide

/-- Claim C10: the in-body checks evaluate the membership expression and
discard it, so for a readable table missing required columns the check
still returns successfully (the SystemExit branch is not taken; here the
accounts check returns ok with the discarded value false), every readable
column list passes all three checks, and only the separate validate_inputs
gate reports not-ok. -/
theorem inbody_checks_never_abort (cols : List String)
    (hmiss : "npo02__LastCloseDate__c" ∉ cols) :
    inBodyColumnCheck acc_req_cols cols = Except.ok false ∧
    (∀ cols2 : List String, (inBodyColumnCheck acc_req_cols cols2).isOk = true ∧
      (inBodyColumnCheck opp_req_cols cols2).isOk = true ∧
      (inBodyColumnCheck addr_req_cols cols2).isOk = true) ∧
    (∀ dir : String → Option (List String), dir "d4g_account.csv" = some cols →
      (validate_inputs_persona dir).1 = false) := by
  refine ⟨?_, fun cols2 => ⟨rfl, rfl, rfl⟩, fun dir hacc =>
    (validate_persona_flags_missing_close_date dir cols hacc hmiss).1⟩
  simp [inBodyColumnCheck, acc_req_cols, hmiss]

/-- Witness for C10: an accounts table carrying only the Id column passes
the in-body check with the discarded value false. -/
theorem inbody_checks_never_abort_witness :
    inBodyColumnCheck acc_req_cols ["Id"] = Except.ok false :=
  (inbody_checks_never_abort ["Id"] (by decide)).1
